import Mathlib

/-!
Shallow embedding of the seat reservation service core: the reservation
store queries, the half open interval overlap check, the three
transactional operations (create, cancel, rebook) as they are sequenced
by the POST, DELETE and PUT reservation routes, the read only list route
with its optional filters, and the route level validation and error
handling.

Modeling conventions: calendar dates are natural number codes (ISO date
strings compare lexicographically, which agrees with any order preserving
encoding); times of day are minutes since midnight, as produced by
parsing the already validated "HH:mm" strings; a transaction is modeled
by computing on the committed state and returning the original state on
every rollback path, so the committed database after a call is the pair
component the operation returns.
-/

namespace SeatRes

/-- Reservation lifecycle state: the status column holds one of the two
values reserved and canceled. -/
inductive Status where
  | reserved
  | canceled
deriving DecidableEq, Repr

/-- A row of the Reservations table. -/
structure Reservation where
  id : Nat
  userId : Nat
  seatId : Nat
  reservedDate : Nat
  startTime : Nat
  endTime : Nat
  status : Status
deriving DecidableEq, Repr

/-- A row of the Users table, restricted to the fields the reservation
routes read. -/
structure User where
  id : Nat
  firstName : String
  lastName : String
deriving DecidableEq, Repr

/-- A row of the Seats table. -/
structure Seat where
  id : Nat
  name : String
deriving DecidableEq, Repr

/-- The committed database state. The id column of Reservations is an
identity column, modeled by the nextId counter. -/
structure DB where
  users : List User
  seats : List Seat
  reservations : List Reservation
  nextId : Nat
deriving DecidableEq, Repr

/-- SELECT from Reservations WHERE id = @id AND status = reserved,
returning whether the result set is nonempty. -/
def checkReservationExists (db : DB) (id : Nat) : Bool :=
  db.reservations.any fun r => decide (r.id = id) && decide (r.status = Status.reserved)

/-- SELECT id FROM Users WHERE id = @userId, returning whether the result
set is nonempty. -/
def checkUserExists (db : DB) (userId : Nat) : Bool :=
  db.users.any fun u => decide (u.id = userId)

/-- SELECT id FROM Seats WHERE id = @seatId, returning whether the result
set is nonempty. -/
def checkSeatExists (db : DB) (seatId : Nat) : Bool :=
  db.seats.any fun s => decide (s.id = seatId)

/-- One row of the WHERE clause of the overlap query: seat and date
equality, status reserved, strict half open overlap
(start_time < @endTime AND end_time > @startTime), and the
id <> @excludeId conjunct that is appended only when an exclude id was
supplied. -/
def overlapRow (r : Reservation) (seatId : Nat) (reservedDate : Nat)
    (startTime endTime : Nat) (excludeId : Option Nat) : Bool :=
  decide (r.seatId = seatId) && decide (r.reservedDate = reservedDate)
    && decide (r.status = Status.reserved)
    && decide (r.startTime < endTime) && decide (r.endTime > startTime)
    && (match excludeId with
        | some x => decide (r.id ≠ x)
        | none => true)

/-- The locking overlap query of checkOverlap: true iff at least one row
of the Reservations table matches the WHERE clause. -/
def checkOverlap (db : DB) (seatId : Nat) (reservedDate : Nat)
    (startTime endTime : Nat) (excludeId : Option Nat) : Bool :=
  db.reservations.any fun r => overlapRow r seatId reservedDate startTime endTime excludeId

/-- INSERT INTO Reservations with status reserved and OUTPUT INSERTED:
returns the inserted row together with the updated table. -/
def createReservation (db : DB) (userId seatId : Nat) (reservedDate : Nat)
    (startTime endTime : Nat) : Reservation × DB :=
  let r : Reservation :=
    { id := db.nextId, userId := userId, seatId := seatId,
      reservedDate := reservedDate, startTime := startTime,
      endTime := endTime, status := Status.reserved }
  (r, { db with reservations := db.reservations ++ [r], nextId := db.nextId + 1 })

/-- UPDATE Reservations SET status = canceled WHERE id = @id. -/
def cancelReservation (db : DB) (id : Nat) : DB :=
  { db with reservations :=
      db.reservations.map fun r =>
        if r.id = id then { r with status := Status.canceled } else r }

/-- Outcome of the POST reservation route body. -/
inductive CreateResult where
  | userNotFound
  | seatNotFound
  | slotConflict
  | created (r : Reservation)
deriving DecidableEq, Repr

/-- The POST route transaction: the user existence, seat existence and
overlap checks in order, each failure rolling back (the committed state
stays the original one), then insert and commit. -/
def createOp (db : DB) (userId seatId : Nat) (reservedDate : Nat)
    (startTime endTime : Nat) : CreateResult × DB :=
  if !checkUserExists db userId then (CreateResult.userNotFound, db)
  else if !checkSeatExists db seatId then (CreateResult.seatNotFound, db)
  else if checkOverlap db seatId reservedDate startTime endTime none then
    (CreateResult.slotConflict, db)
  else
    let (r, db1) := createReservation db userId seatId reservedDate startTime endTime
    (CreateResult.created r, db1)

/-- Outcome of the DELETE reservation route body. -/
inductive CancelResult where
  | notFound
  | canceled
deriving DecidableEq, Repr

/-- The DELETE route transaction: existence check (rollback and not found
on failure), then the status update and commit. -/
def cancelOp (db : DB) (id : Nat) : CancelResult × DB :=
  if !checkReservationExists db id then (CancelResult.notFound, db)
  else (CancelResult.canceled, cancelReservation db id)

/-- Outcome of the PUT reservation route body. -/
inductive RebookResult where
  | notFound
  | userNotFound
  | seatNotFound
  | slotConflict
  | updated (r : Reservation)
deriving DecidableEq, Repr

/-- The PUT route transaction: reservation, user and seat existence
checks, the overlap check excluding the reservation being replaced, then
cancel of the old row followed by insert of the new row, and commit.
Every failing check rolls back, leaving the committed state unchanged. -/
def rebookOp (db : DB) (id userId seatId : Nat) (reservedDate : Nat)
    (startTime endTime : Nat) : RebookResult × DB :=
  if !checkReservationExists db id then (RebookResult.notFound, db)
  else if !checkUserExists db userId then (RebookResult.userNotFound, db)
  else if !checkSeatExists db seatId then (RebookResult.seatNotFound, db)
  else if checkOverlap db seatId reservedDate startTime endTime (some id) then
    (RebookResult.slotConflict, db)
  else
    let db1 := cancelReservation db id
    let (r, db2) := createReservation db1 userId seatId reservedDate startTime endTime
    (RebookResult.updated r, db2)

/-- Committing adopts the transaction local state; an aborted transaction
leaves the committed database as it was. -/
def commitOrRollback {α : Type} (db : DB) (work : Option (α × DB)) : Option α × DB :=
  match work with
  | some (a, db1) => (some a, db1)
  | none => (none, db)

/-- The PUT route transaction when the insert step raises a database
exception: the checks run as usual, the cancel executes on the
transaction local state, then the exception reaches the catch block,
which rolls the transaction back, discarding the uncommitted cancel. -/
def rebookOpInsertFails (db : DB) (id userId seatId : Nat) (reservedDate : Nat)
    (startTime endTime : Nat) : Option Reservation × DB :=
  if !checkReservationExists db id then (none, db)
  else if !checkUserExists db userId then (none, db)
  else if !checkSeatExists db seatId then (none, db)
  else if checkOverlap db seatId reservedDate startTime endTime (some id) then
    (none, db)
  else
    let _txnState := cancelReservation db id
    commitOrRollback db (none : Option (Reservation × DB))

/-- Claim C2: on a table holding one reserved reservation with interval
(s2, e2) on the queried seat and date, the overlap check flags the
queried interval (s1, e1) iff s1 < e2 and s2 < e1; in particular an
adjacent interval (e1 = s2) is never flagged. -/
theorem checkOverlap_pairwise (seatId uid rid d s1 e1 s2 e2 : Nat)
    (h1 : s1 < e1) (h2 : s2 < e2) :
    (checkOverlap ⟨[], [], [⟨rid, uid, seatId, d, s2, e2, Status.reserved⟩], rid + 1⟩
        seatId d s1 e1 none = true ↔ (s1 < e2 ∧ s2 < e1)) ∧
    (e1 = s2 →
      checkOverlap ⟨[], [], [⟨rid, uid, seatId, d, s2, e2, Status.reserved⟩], rid + 1⟩
        seatId d s1 e1 none = false) := by
  constructor
  · simp [checkOverlap, overlapRow]
    omega
  · intro he
    simp [checkOverlap, overlapRow]
    omega

/-- Concrete instance of checkOverlap_pairwise: interval 14:30 to 15:30
against a reserved 14:00 to 15:00 row is flagged, and the adjacent
interval case is covered by the hypotheses 870 < 930 and 840 < 900. -/
theorem checkOverlap_pairwise_witness :
    (checkOverlap ⟨[], [], [⟨3, 1, 10, 20250715, 840, 900, Status.reserved⟩], 4⟩
        10 20250715 870 930 none = true ↔ (870 < 900 ∧ 840 < 930)) ∧
    (930 = 840 →
      checkOverlap ⟨[], [], [⟨3, 1, 10, 20250715, 840, 900, Status.reserved⟩], 4⟩
        10 20250715 870 930 none = false) :=
  checkOverlap_pairwise 10 1 3 20250715 870 930 840 900 (by decide) (by decide)

/-- Claim C3: Create runs user existence, then seat existence, then the
overlap check, in that fixed order, failing with the result of the first
check that fails while the committed state stays unchanged (no row
inserted); only when all three checks pass does it insert a reserved row,
commit, and return that row. -/
theorem create_check_order (db : DB) (userId seatId reservedDate startTime endTime : Nat) :
    (checkUserExists db userId = false →
      createOp db userId seatId reservedDate startTime endTime =
        (CreateResult.userNotFound, db)) ∧
    (checkUserExists db userId = true → checkSeatExists db seatId = false →
      createOp db userId seatId reservedDate startTime endTime =
        (CreateResult.seatNotFound, db)) ∧
    (checkUserExists db userId = true → checkSeatExists db seatId = true →
      checkOverlap db seatId reservedDate startTime endTime none = true →
      createOp db userId seatId reservedDate startTime endTime =
        (CreateResult.slotConflict, db)) ∧
    (checkUserExists db userId = true → checkSeatExists db seatId = true →
      checkOverlap db seatId reservedDate startTime endTime none = false →
      createOp db userId seatId reservedDate startTime endTime =
        (CreateResult.created
          ⟨db.nextId, userId, seatId, reservedDate, startTime, endTime, Status.reserved⟩,
         { db with
            reservations := db.reservations ++
              [⟨db.nextId, userId, seatId, reservedDate, startTime, endTime, Status.reserved⟩],
            nextId := db.nextId + 1 })) := by
  refine ⟨fun h1 => ?_, fun h1 h2 => ?_, fun h1 h2 h3 => ?_, fun h1 h2 h3 => ?_⟩ <;>
    simp [createOp, createReservation, h1, *]

/-- Concrete instance of create_check_order: on a database holding user 1
and seat 2 and no reservations, all three checks pass and the reserved
row is inserted and returned. -/
theorem create_check_order_witness :
    createOp ⟨[⟨1, "Taro", "Tanaka"⟩], [⟨2, "A-1"⟩], [], 5⟩ 1 2 20250715 840 900 =
      (CreateResult.created ⟨5, 1, 2, 20250715, 840, 900, Status.reserved⟩,
       ⟨[⟨1, "Taro", "Tanaka"⟩], [⟨2, "A-1"⟩],
        [⟨5, 1, 2, 20250715, 840, 900, Status.reserved⟩], 6⟩) :=
  (create_check_order ⟨[⟨1, "Taro", "Tanaka"⟩], [⟨2, "A-1"⟩], [], 5⟩
    1 2 20250715 840 900).2.2.2 (by decide) (by decide) (by decide)

/-- Claim C4: rebook is all or nothing: either nothing is committed (the
resulting state is the original one, so the old reservation keeps its
status), or the commit contains both mutations at once: the returned new
row is present with status reserved while every other row carrying the
replaced id is canceled; and when the insert step fails after the cancel,
the rollback leaves the committed state exactly as it was, so the old
reservation remains reserved. -/
theorem rebook_all_or_nothing (db : DB) (id userId seatId reservedDate startTime endTime : Nat) :
    ((rebookOp db id userId seatId reservedDate startTime endTime).2 = db ∨
      ∃ r, (rebookOp db id userId seatId reservedDate startTime endTime).1 =
          RebookResult.updated r ∧
        r ∈ (rebookOp db id userId seatId reservedDate startTime endTime).2.reservations ∧
        r.status = Status.reserved ∧
        (∀ r0 ∈ (rebookOp db id userId seatId reservedDate startTime endTime).2.reservations,
          r0.id = id → r0 = r ∨ r0.status = Status.canceled)) ∧
    rebookOpInsertFails db id userId seatId reservedDate startTime endTime =
      ((none : Option Reservation), db) := by
  constructor
  · by_cases hres : checkReservationExists db id = true
    · by_cases huser : checkUserExists db userId = true
      · by_cases hseat : checkSeatExists db seatId = true
        · by_cases hover : checkOverlap db seatId reservedDate startTime endTime (some id) = true
          · left; simp [rebookOp, hres, huser, hseat, hover]
          · right
            refine ⟨⟨db.nextId, userId, seatId, reservedDate, startTime, endTime,
              Status.reserved⟩, ?_, ?_, rfl, ?_⟩
            · simp [rebookOp, hres, huser, hseat, hover, createReservation,
                cancelReservation]
            · simp [rebookOp, hres, huser, hseat, hover, createReservation,
                cancelReservation]
            · intro r0 hr0 hid
              simp [rebookOp, hres, huser, hseat, hover, createReservation,
                cancelReservation] at hr0
              rcases hr0 with ⟨r1, _, hr1⟩ | hr0
              · by_cases h : r1.id = id
                · right
                  rw [← hr1]
                  simp [h]
                · exfalso
                  rw [← hr1] at hid
                  simp [h] at hid
              · left; rw [hr0]
        · left; simp [rebookOp, hres, huser, hseat]
      · left; simp [rebookOp, hres, huser]
    · left; simp [rebookOp, hres]
  · simp only [rebookOpInsertFails, commitOrRollback]
    by_cases hres : checkReservationExists db id = true <;>
      by_cases huser : checkUserExists db userId = true <;>
        by_cases hseat : checkSeatExists db seatId = true <;>
          by_cases hover : checkOverlap db seatId reservedDate startTime endTime (some id) =
            true <;>
      simp [hres, huser, hseat, hover]

/-- Concrete instance of rebook_all_or_nothing: rebooking reservation 7 on
a one row database succeeds, and the insert failure variant commits
nothing. -/
theorem rebook_all_or_nothing_witness :
    (((rebookOp ⟨[⟨1, "Taro", "Tanaka"⟩], [⟨2, "A-1"⟩],
          [⟨7, 1, 2, 20250715, 840, 900, Status.reserved⟩], 8⟩
        7 1 2 20250715 960 1020).2 =
        ⟨[⟨1, "Taro", "Tanaka"⟩], [⟨2, "A-1"⟩],
          [⟨7, 1, 2, 20250715, 840, 900, Status.reserved⟩], 8⟩ ∨
      ∃ r, (rebookOp ⟨[⟨1, "Taro", "Tanaka"⟩], [⟨2, "A-1"⟩],
          [⟨7, 1, 2, 20250715, 840, 900, Status.reserved⟩], 8⟩
            7 1 2 20250715 960 1020).1 = RebookResult.updated r ∧
        r ∈ (rebookOp ⟨[⟨1, "Taro", "Tanaka"⟩], [⟨2, "A-1"⟩],
          [⟨7, 1, 2, 20250715, 840, 900, Status.reserved⟩], 8⟩
            7 1 2 20250715 960 1020).2.reservations ∧
        r.status = Status.reserved ∧
        (∀ r0 ∈ (rebookOp ⟨[⟨1, "Taro", "Tanaka"⟩], [⟨2, "A-1"⟩],
            [⟨7, 1, 2, 20250715, 840, 900, Status.reserved⟩], 8⟩
              7 1 2 20250715 960 1020).2.reservations,
          r0.id = 7 → r0 = r ∨ r0.status = Status.canceled)) ∧
    rebookOpInsertFails ⟨[⟨1, "Taro", "Tanaka"⟩], [⟨2, "A-1"⟩],
        [⟨7, 1, 2, 20250715, 840, 900, Status.reserved⟩], 8⟩
      7 1 2 20250715 960 1020 =
      ((none : Option Reservation),
        ⟨[⟨1, "Taro", "Tanaka"⟩], [⟨2, "A-1"⟩],
          [⟨7, 1, 2, 20250715, 840, 900, Status.reserved⟩], 8⟩)) :=
  rebook_all_or_nothing ⟨[⟨1, "Taro", "Tanaka"⟩], [⟨2, "A-1"⟩],
    [⟨7, 1, 2, 20250715, 840, 900, Status.reserved⟩], 8⟩ 7 1 2 20250715 960 1020

/-- Claim C5: Cancel reports not found iff no row with the given id has
status reserved (a never existing id and an already canceled id satisfy
the same predicate), and in that case the committed state is unchanged;
on success every row with the given id (and nothing else) has its status
set to canceled, all other fields preserved; and a second cancel of the
same id always reports not found and changes nothing, so the operation
never performs a second state change (being a total function, it never
crashes). -/
theorem cancel_spec (db : DB) (id : Nat) :
    ((cancelOp db id).1 = CancelResult.notFound ↔
      ∀ r ∈ db.reservations, r.id = id → r.status ≠ Status.reserved) ∧
    ((cancelOp db id).1 = CancelResult.notFound → (cancelOp db id).2 = db) ∧
    ((cancelOp db id).1 = CancelResult.canceled →
      (cancelOp db id).2.reservations =
        db.reservations.map fun r =>
          if r.id = id then { r with status := Status.canceled } else r) ∧
    cancelOp (cancelOp db id).2 id = (CancelResult.notFound, (cancelOp db id).2) := by
  by_cases h : checkReservationExists db id = true
  · have hnot : ¬∀ r ∈ db.reservations, r.id = id → r.status ≠ Status.reserved := by
      simp only [checkReservationExists, List.any_eq_true, Bool.and_eq_true,
        decide_eq_true_eq] at h
      obtain ⟨r, hr, hid, hst⟩ := h
      intro hall
      exact hall r hr hid hst
    have hsecond : checkReservationExists (cancelReservation db id) id = false := by
      simp only [checkReservationExists, cancelReservation, List.any_map, List.any_eq_false,
        Function.comp]
      intro r _
      by_cases hid : r.id = id <;> simp [hid]
    refine ⟨by simp [cancelOp, h, hnot], by simp [cancelOp, h], ?_, ?_⟩
    · intro _
      simp [cancelOp, h, cancelReservation]
    · simp [cancelOp, h, hsecond]
  · have hall : ∀ r ∈ db.reservations, r.id = id → r.status ≠ Status.reserved := by
      simp only [Bool.not_eq_true] at h
      simp only [checkReservationExists, List.any_eq_false, Bool.and_eq_true,
        decide_eq_true_eq] at h
      intro r hr hid hst
      exact h r hr ⟨hid, hst⟩
    refine ⟨⟨fun _ => hall, fun _ => by simp [cancelOp, h]⟩, by simp [cancelOp, h], ?_,
      by simp [cancelOp, h]⟩
    intro hc
    simp [cancelOp, h] at hc

/-- Concrete instance of cancel_spec: a database holding one reserved row
with id 3 and one canceled row with id 4, canceling id 3. -/
theorem cancel_spec_witness :
    ((cancelOp ⟨[], [], [⟨3, 1, 2, 20250715, 840, 900, Status.reserved⟩,
          ⟨4, 1, 2, 20250715, 600, 660, Status.canceled⟩], 5⟩ 3).1 = CancelResult.notFound ↔
      ∀ r ∈ ([⟨3, 1, 2, 20250715, 840, 900, Status.reserved⟩,
          ⟨4, 1, 2, 20250715, 600, 660, Status.canceled⟩] : List Reservation),
        r.id = 3 → r.status ≠ Status.reserved) ∧
    ((cancelOp ⟨[], [], [⟨3, 1, 2, 20250715, 840, 900, Status.reserved⟩,
          ⟨4, 1, 2, 20250715, 600, 660, Status.canceled⟩], 5⟩ 3).1 = CancelResult.notFound →
      (cancelOp ⟨[], [], [⟨3, 1, 2, 20250715, 840, 900, Status.reserved⟩,
          ⟨4, 1, 2, 20250715, 600, 660, Status.canceled⟩], 5⟩ 3).2 =
        ⟨[], [], [⟨3, 1, 2, 20250715, 840, 900, Status.reserved⟩,
          ⟨4, 1, 2, 20250715, 600, 660, Status.canceled⟩], 5⟩) ∧
    ((cancelOp ⟨[], [], [⟨3, 1, 2, 20250715, 840, 900, Status.reserved⟩,
          ⟨4, 1, 2, 20250715, 600, 660, Status.canceled⟩], 5⟩ 3).1 = CancelResult.canceled →
      (cancelOp ⟨[], [], [⟨3, 1, 2, 20250715, 840, 900, Status.reserved⟩,
          ⟨4, 1, 2, 20250715, 600, 660, Status.canceled⟩], 5⟩ 3).2.reservations =
        ([⟨3, 1, 2, 20250715, 840, 900, Status.reserved⟩,
          ⟨4, 1, 2, 20250715, 600, 660, Status.canceled⟩] : List Reservation).map fun r =>
          if r.id = 3 then { r with status := Status.canceled } else r) ∧
    cancelOp (cancelOp ⟨[], [], [⟨3, 1, 2, 20250715, 840, 900, Status.reserved⟩,
          ⟨4, 1, 2, 20250715, 600, 660, Status.canceled⟩], 5⟩ 3).2 3 =
      (CancelResult.notFound,
        (cancelOp ⟨[], [], [⟨3, 1, 2, 20250715, 840, 900, Status.reserved⟩,
          ⟨4, 1, 2, 20250715, 600, 660, Status.canceled⟩], 5⟩ 3).2) :=
  cancel_spec ⟨[], [], [⟨3, 1, 2, 20250715, 840, 900, Status.reserved⟩,
    ⟨4, 1, 2, 20250715, 600, 660, Status.canceled⟩], 5⟩ 3

/-- Claim C6: the rebook overlap check excludes the reservation being
replaced: whenever every row that raw-overlaps the requested interval on
that seat and date is the reservation being replaced itself, the overlap
check with the exclude id reports no conflict, and (the other checks
passing) the rebook succeeds, returning the new reserved row. -/
theorem rebook_excludes_self (db : DB) (id userId seatId reservedDate startTime endTime : Nat)
    (hres : checkReservationExists db id = true)
    (huser : checkUserExists db userId = true)
    (hseat : checkSeatExists db seatId = true)
    (honly : ∀ r ∈ db.reservations,
      overlapRow r seatId reservedDate startTime endTime none = true → r.id = id) :
    checkOverlap db seatId reservedDate startTime endTime (some id) = false ∧
    (rebookOp db id userId seatId reservedDate startTime endTime).1 =
      RebookResult.updated
        ⟨db.nextId, userId, seatId, reservedDate, startTime, endTime, Status.reserved⟩ := by
  have hover : checkOverlap db seatId reservedDate startTime endTime (some id) = false := by
    simp only [checkOverlap, List.any_eq_false]
    intro r hr
    have hsplit : overlapRow r seatId reservedDate startTime endTime (some id) =
        (overlapRow r seatId reservedDate startTime endTime none && decide (r.id ≠ id)) := by
      simp [overlapRow, Bool.and_assoc]
    rw [hsplit]
    by_cases hbase : overlapRow r seatId reservedDate startTime endTime none = true
    · have := honly r hr hbase
      simp [hbase, this]
    · simp only [Bool.not_eq_true] at hbase
      simp [hbase]
  refine ⟨hover, ?_⟩
  simp [rebookOp, hres, huser, hseat, hover, createReservation, cancelReservation]

/-- Concrete instance of rebook_excludes_self: the requested interval
overlaps only the row being replaced, so the rebook succeeds. -/
theorem rebook_excludes_self_witness :
    checkOverlap ⟨[⟨1, "Taro", "Tanaka"⟩], [⟨2, "A-1"⟩],
        [⟨7, 1, 2, 20250715, 840, 900, Status.reserved⟩], 8⟩
      2 20250715 850 910 (some 7) = false ∧
    (rebookOp ⟨[⟨1, "Taro", "Tanaka"⟩], [⟨2, "A-1"⟩],
        [⟨7, 1, 2, 20250715, 840, 900, Status.reserved⟩], 8⟩
      7 1 2 20250715 850 910).1 =
      RebookResult.updated ⟨8, 1, 2, 20250715, 850, 910, Status.reserved⟩ :=
  rebook_excludes_self ⟨[⟨1, "Taro", "Tanaka"⟩], [⟨2, "A-1"⟩],
      [⟨7, 1, 2, 20250715, 840, 900, Status.reserved⟩], 8⟩
    7 1 2 20250715 850 910 (by decide) (by decide) (by decide) (by decide)

/-- The optional query parameters of the GET reservations route, after
Number conversion: an id parameter that was absent (or not a number) is
none; the date and status parameters are none when absent or empty
(an empty string is falsy, so the route skips the filter exactly as for
an absent one). The order flag does not affect which rows are returned
and is omitted. -/
structure ListFilters where
  userId : Option Nat
  fromDate : Option Nat
  toDate : Option Nat
  seatId : Option Nat
  status : Option String
deriving DecidableEq, Repr

/-- The serialized status column value. -/
def statusStr : Status → String
  | Status.reserved => "reserved"
  | Status.canceled => "canceled"

/-- An id filter clause: appended to the WHERE clause only when the
parsed value is truthy, so a supplied value of 0 adds no clause. -/
def natFilterPass (o : Option Nat) (v : Nat) : Bool :=
  match o with
  | some u => if u = 0 then true else decide (v = u)
  | none => true

/-- The reserved_date >= @fromDate clause, appended when supplied. -/
def fromDatePass (o : Option Nat) (v : Nat) : Bool :=
  match o with
  | some a => decide (a ≤ v)
  | none => true

/-- The reserved_date <= @toDate clause, appended when supplied. -/
def toDatePass (o : Option Nat) (v : Nat) : Bool :=
  match o with
  | some b => decide (v ≤ b)
  | none => true

/-- The status = @status clause: appended only when the status string is
truthy, so an empty string adds no clause. -/
def statusPass (o : Option String) (v : String) : Bool :=
  match o with
  | some st => if st = "" then true else decide (v = st)
  | none => true

/-- The conjunction of all filter clauses the route appended after
WHERE 1=1. -/
def rowPasses (f : ListFilters) (r : Reservation) : Bool :=
  natFilterPass f.userId r.userId && fromDatePass f.fromDate r.reservedDate
    && toDatePass f.toDate r.reservedDate && natFilterPass f.seatId r.seatId
    && statusPass f.status (statusStr r.status)

/-- One formatted row of the GET response. -/
structure ListedRow where
  reservationId : Nat
  userId : Nat
  firstName : String
  lastName : String
  seatId : Nat
  seatName : String
  reservedDate : Nat
  startTime : Nat
  endTime : Nat
  status : String
deriving DecidableEq, Repr

/-- The SELECT list of the GET query: the reservation row joined with the
user name columns and the seat name. -/
def mkRow (r : Reservation) (u : User) (s : Seat) : ListedRow :=
  { reservationId := r.id, userId := r.userId, firstName := u.firstName,
    lastName := u.lastName, seatId := r.seatId, seatName := s.name,
    reservedDate := r.reservedDate, startTime := r.startTime,
    endTime := r.endTime, status := statusStr r.status }

/-- The GET reservations route: reservations joined with Users and Seats
on their primary keys, restricted to the rows passing every appended
filter clause. -/
def listOp (db : DB) (f : ListFilters) : List ListedRow :=
  db.reservations.filterMap fun r =>
    match db.users.find? (fun u => decide (u.id = r.userId)),
        db.seats.find? (fun s => decide (s.id = r.seatId)) with
    | some u, some s => if rowPasses f r then some (mkRow r u s) else none
    | _, _ => none

/-- Claim C7 counterexample: with the userId filter supplied as 0 on a
database whose only reservation belongs to user 1, the route returns
that row, so a returned row does not satisfy the supplied userId filter:
the truthiness test treats the supplied 0 as absent. -/
theorem list_zero_filter_cex :
    (⟨some 0, none, none, none, none⟩ : ListFilters).userId = some 0 ∧
    listOp ⟨[⟨1, "Taro", "Tanaka"⟩], [⟨2, "A-1"⟩],
        [⟨3, 1, 2, 20250715, 840, 900, Status.reserved⟩], 4⟩
      ⟨some 0, none, none, none, none⟩ =
      [⟨3, 1, "Taro", "Tanaka", 2, "A-1", 20250715, 840, 900, "reserved"⟩] ∧
    (1 : Nat) ≠ 0 := by
  refine ⟨rfl, ?_, by decide⟩
  rfl

/-- Claim C7 as amended: every returned row satisfies each supplied
filter whose value is truthy (a nonzero id, a nonempty status string, any
supplied date bound), and conversely a reservation that joins with its
user and seat and satisfies every supplied truthy filter is returned, so
absent filters (and the falsy values 0 and the empty string, which the
route treats as absent) impose no constraint. -/
theorem list_filters_apply (db : DB) (f : ListFilters) :
    (∀ row ∈ listOp db f,
      (∀ u, f.userId = some u → u ≠ 0 → row.userId = u) ∧
      (∀ a, f.fromDate = some a → a ≤ row.reservedDate) ∧
      (∀ b, f.toDate = some b → row.reservedDate ≤ b) ∧
      (∀ sid, f.seatId = some sid → sid ≠ 0 → row.seatId = sid) ∧
      (∀ st, f.status = some st → st ≠ "" → row.status = st)) ∧
    (∀ r ∈ db.reservations, ∀ u s,
      db.users.find? (fun x => decide (x.id = r.userId)) = some u →
      db.seats.find? (fun x => decide (x.id = r.seatId)) = some s →
      (∀ uid, f.userId = some uid → uid ≠ 0 → r.userId = uid) →
      (∀ a, f.fromDate = some a → a ≤ r.reservedDate) →
      (∀ b, f.toDate = some b → r.reservedDate ≤ b) →
      (∀ sid, f.seatId = some sid → sid ≠ 0 → r.seatId = sid) →
      (∀ st, f.status = some st → st ≠ "" → statusStr r.status = st) →
      mkRow r u s ∈ listOp db f) := by
  have hpass : ∀ r : Reservation,
      (∀ uid, f.userId = some uid → uid ≠ 0 → r.userId = uid) →
      (∀ a, f.fromDate = some a → a ≤ r.reservedDate) →
      (∀ b, f.toDate = some b → r.reservedDate ≤ b) →
      (∀ sid, f.seatId = some sid → sid ≠ 0 → r.seatId = sid) →
      (∀ st, f.status = some st → st ≠ "" → statusStr r.status = st) →
      rowPasses f r = true := by
    intro r hu ha hb hsid hst
    simp only [rowPasses, Bool.and_eq_true]
    refine ⟨⟨⟨⟨?_, ?_⟩, ?_⟩, ?_⟩, ?_⟩
    · cases hc : f.userId with
      | none => simp [natFilterPass]
      | some uid =>
        by_cases h0 : uid = 0
        · simp [natFilterPass, h0]
        · simp [natFilterPass, h0, hu uid hc h0]
    · cases hc : f.fromDate with
      | none => simp [fromDatePass]
      | some a => simp [fromDatePass, ha a hc]
    · cases hc : f.toDate with
      | none => simp [toDatePass]
      | some b => simp [toDatePass, hb b hc]
    · cases hc : f.seatId with
      | none => simp [natFilterPass]
      | some sid =>
        by_cases h0 : sid = 0
        · simp [natFilterPass, h0]
        · simp [natFilterPass, h0, hsid sid hc h0]
    · cases hc : f.status with
      | none => simp [statusPass]
      | some st =>
        by_cases h0 : st = ""
        · simp [statusPass, h0]
        · simp [statusPass, h0, hst st hc h0]
  constructor
  · intro row hrow
    simp only [listOp, List.mem_filterMap] at hrow
    obtain ⟨r, hr, hmatch⟩ := hrow
    cases hu : db.users.find? (fun x => decide (x.id = r.userId)) with
    | none => rw [hu] at hmatch; simp at hmatch
    | some u =>
      cases hs : db.seats.find? (fun x => decide (x.id = r.seatId)) with
      | none => rw [hu, hs] at hmatch; simp at hmatch
      | some s =>
        rw [hu, hs] at hmatch
        by_cases hp : rowPasses f r = true
        · have hrw : mkRow r u s = row := by simpa [hp] using hmatch
          subst hrw
          simp only [rowPasses, Bool.and_eq_true] at hp
          obtain ⟨⟨⟨⟨p1, p2⟩, p3⟩, p4⟩, p5⟩ := hp
          refine ⟨?_, ?_, ?_, ?_, ?_⟩
          · intro uid hc h0
            rw [hc] at p1
            simpa [natFilterPass, h0, mkRow] using p1
          · intro a hc
            rw [hc] at p2
            simpa [fromDatePass, mkRow] using p2
          · intro b hc
            rw [hc] at p3
            simpa [toDatePass, mkRow] using p3
          · intro sid hc h0
            rw [hc] at p4
            simpa [natFilterPass, h0, mkRow] using p4
          · intro st hc h0
            rw [hc] at p5
            simpa [statusPass, h0, mkRow] using p5
        · simp [hp] at hmatch
  · intro r hr u s hu hs hufilt hafilt hbfilt hsidfilt hstfilt
    have hp := hpass r hufilt hafilt hbfilt hsidfilt hstfilt
    simp only [listOp, List.mem_filterMap]
    exact ⟨r, hr, by rw [hu, hs]; simp [hp]⟩

/-- Concrete instance of list_filters_apply: a reserved row of user 1 on
seat 2 passes the filters userId 1 and status reserved and is returned. -/
theorem list_filters_apply_witness :
    mkRow ⟨3, 1, 2, 20250715, 840, 900, Status.reserved⟩ ⟨1, "Taro", "Tanaka"⟩ ⟨2, "A-1"⟩ ∈
      listOp ⟨[⟨1, "Taro", "Tanaka"⟩], [⟨2, "A-1"⟩],
          [⟨3, 1, 2, 20250715, 840, 900, Status.reserved⟩], 4⟩
        ⟨some 1, none, none, none, some "reserved"⟩ :=
  (list_filters_apply ⟨[⟨1, "Taro", "Tanaka"⟩], [⟨2, "A-1"⟩],
      [⟨3, 1, 2, 20250715, 840, 900, Status.reserved⟩], 4⟩
    ⟨some 1, none, none, none, some "reserved"⟩).2
    ⟨3, 1, 2, 20250715, 840, 900, Status.reserved⟩ (by decide)
    ⟨1, "Taro", "Tanaka"⟩ ⟨2, "A-1"⟩ (by decide) (by decide)
    (by intro uid hc h0; cases hc; decide)
    (by intro a hc; cases hc)
    (by intro b hc; cases hc)
    (by intro sid hc h0; cases hc)
    (by intro st hc h0; cases hc; decide)

/-- Where a database exception is raised inside the try block of a
mutation route: nowhere, in one of the check or mutation queries, or in
the commit itself. -/
inductive FailPoint where
  | noFail
  | atQuery
  | atCommit
deriving DecidableEq, Repr

/-- The result of the JavaScript Number conversion of the path id: not a
number, or a numeric value. -/
inductive NumVal where
  | nan
  | val (n : Nat)
deriving DecidableEq, Repr

/-- The DELETE route: the parsed path id is tested for truthiness (NaN
and 0 are falsy) and rejected with 400 before the transaction opens;
otherwise the cancel transaction runs and the result is rendered. -/
def deleteRoute (db : DB) (rawId : NumVal) : (Nat × String) × DB :=
  match rawId with
  | NumVal.nan => ((400, "Reservation ID required"), db)
  | NumVal.val id =>
    if id = 0 then ((400, "Reservation ID required"), db)
    else
      match cancelOp db id with
      | (CancelResult.notFound, db1) =>
        ((404, "Reservation not found or already canceled"), db1)
      | (CancelResult.canceled, db1) => ((200, "Reservation canceled"), db1)

/-- The POST route try block with an exception oracle. On the normal path
the create transaction runs and its result is rendered; when a query or
the commit raises, the catch block runs: the rollback attempt sits in its
own try whose catch only logs, so the 500 response is sent whether or not
the rollback fails, and nothing is committed. The response is an option:
none models a handler that sends no response at all. -/
def createRouteFaulty (db : DB) (userId seatId reservedDate startTime endTime : Nat)
    (fp : FailPoint) (rollbackFails : Bool) : Option (Nat × String) × DB :=
  match fp with
  | FailPoint.noFail =>
    match createOp db userId seatId reservedDate startTime endTime with
    | (CreateResult.userNotFound, db1) => (some (404, "User not found"), db1)
    | (CreateResult.seatNotFound, db1) => (some (404, "Seat not found"), db1)
    | (CreateResult.slotConflict, db1) =>
      (some (409, "Seat already reserved during that time"), db1)
    | (CreateResult.created _, db1) => (some (201, "Reservation created"), db1)
  | _ =>
    if rollbackFails then (some (500, "Reservation failed"), db)
    else (some (500, "Reservation failed"), db)

/-- The PUT route try block with an exception oracle, with the same
guarded rollback in its catch block as the POST route. -/
def putRouteFaulty (db : DB) (id userId seatId reservedDate startTime endTime : Nat)
    (fp : FailPoint) (rollbackFails : Bool) : Option (Nat × String) × DB :=
  match fp with
  | FailPoint.noFail =>
    match rebookOp db id userId seatId reservedDate startTime endTime with
    | (RebookResult.notFound, db1) =>
      (some (404, "Reservation not found or already canceled"), db1)
    | (RebookResult.userNotFound, db1) => (some (404, "User not found"), db1)
    | (RebookResult.seatNotFound, db1) => (some (404, "Seat not found"), db1)
    | (RebookResult.slotConflict, db1) =>
      (some (409, "Seat already reserved during that time"), db1)
    | (RebookResult.updated _, db1) => (some (200, "Reservation updated"), db1)
  | _ =>
    if rollbackFails then (some (500, "Failed to update reservation"), db)
    else (some (500, "Failed to update reservation"), db)

/-- The DELETE route try block with an exception oracle. Its catch block
awaits the rollback without an inner try: when the rollback itself
raises, the error propagates out of the handler and the 500 line is never
reached, so no response is sent. -/
def deleteRouteFaulty (db : DB) (id : Nat) (fp : FailPoint) (rollbackFails : Bool) :
    Option (Nat × String) × DB :=
  match fp with
  | FailPoint.noFail =>
    match cancelOp db id with
    | (CancelResult.notFound, db1) =>
      (some (404, "Reservation not found or already canceled"), db1)
    | (CancelResult.canceled, db1) => (some (200, "Reservation canceled"), db1)
  | _ =>
    if rollbackFails then (none, db)
    else (some (500, "Failed to cancel reservation"), db)

/-- Claim C8 counterexample: in the Cancel route, when the operation
fails at commit and the rollback attempt also fails, no response is
surfaced at all, while with a succeeding rollback the caller receives the
original 500: the rollback failure does change what the caller receives,
because the rollback call of the DELETE catch block is not guarded. -/
theorem cancel_rollback_failure_cex :
    (deleteRouteFaulty ⟨[], [], [⟨3, 1, 2, 20250715, 840, 900, Status.reserved⟩], 4⟩
        3 FailPoint.atCommit true).1 = none ∧
    (deleteRouteFaulty ⟨[], [], [⟨3, 1, 2, 20250715, 840, 900, Status.reserved⟩], 4⟩
        3 FailPoint.atCommit false).1 = some (500, "Failed to cancel reservation") ∧
    (deleteRouteFaulty ⟨[], [], [⟨3, 1, 2, 20250715, 840, 900, Status.reserved⟩], 4⟩
        3 FailPoint.atCommit true).1 ≠
      (deleteRouteFaulty ⟨[], [], [⟨3, 1, 2, 20250715, 840, 900, Status.reserved⟩], 4⟩
        3 FailPoint.atCommit false).1 := by
  refine ⟨rfl, rfl, ?_⟩
  decide

/-- Claim C8 as amended: for Create and Rebook, any exception raised by
any step including commit leads to the catch block, nothing is committed,
and the original 500 response is surfaced whether or not the rollback
attempt fails (the rollback failure is only logged); for Cancel the same
holds only when the rollback succeeds — when the rollback attempt itself
fails, the unguarded rollback call makes the error propagate and no
response is surfaced. -/
theorem rollback_error_surface (db : DB)
    (id userId seatId reservedDate startTime endTime : Nat)
    (fp : FailPoint) (rollbackFails : Bool) (hfp : fp ≠ FailPoint.noFail) :
    createRouteFaulty db userId seatId reservedDate startTime endTime fp rollbackFails =
      (some (500, "Reservation failed"), db) ∧
    putRouteFaulty db id userId seatId reservedDate startTime endTime fp rollbackFails =
      (some (500, "Failed to update reservation"), db) ∧
    deleteRouteFaulty db id fp rollbackFails =
      ((if rollbackFails then none else some (500, "Failed to cancel reservation")), db) := by
  cases fp with
  | noFail => exact absurd rfl hfp
  | atQuery =>
    cases rollbackFails <;>
      exact ⟨rfl, rfl, rfl⟩
  | atCommit =>
    cases rollbackFails <;>
      exact ⟨rfl, rfl, rfl⟩

/-- Concrete instance of rollback_error_surface at a commit failure with
a failing rollback on a one row database. -/
theorem rollback_error_surface_witness :
    createRouteFaulty ⟨[], [], [⟨3, 1, 2, 20250715, 840, 900, Status.reserved⟩], 4⟩
        1 2 20250715 840 900 FailPoint.atCommit true =
      (some (500, "Reservation failed"),
        ⟨[], [], [⟨3, 1, 2, 20250715, 840, 900, Status.reserved⟩], 4⟩) ∧
    putRouteFaulty ⟨[], [], [⟨3, 1, 2, 20250715, 840, 900, Status.reserved⟩], 4⟩
        3 1 2 20250715 840 900 FailPoint.atCommit true =
      (some (500, "Failed to update reservation"),
        ⟨[], [], [⟨3, 1, 2, 20250715, 840, 900, Status.reserved⟩], 4⟩) ∧
    deleteRouteFaulty ⟨[], [], [⟨3, 1, 2, 20250715, 840, 900, Status.reserved⟩], 4⟩
        3 FailPoint.atCommit true =
      ((if true then none else some (500, "Failed to cancel reservation")),
        ⟨[], [], [⟨3, 1, 2, 20250715, 840, 900, Status.reserved⟩], 4⟩) :=
  rollback_error_surface ⟨[], [], [⟨3, 1, 2, 20250715, 840, 900, Status.reserved⟩], 4⟩
    3 1 2 20250715 840 900 FailPoint.atCommit true (by decide)

/-- Claim C10: a DELETE path id parsing to NaN or 0 is rejected with the
400 validation response before the transaction opens: the committed
state is returned untouched, uniformly in the database, and the response
is never the 404 not found one. -/
theorem delete_invalid_id (db : DB) (rawId : NumVal)
    (h : rawId = NumVal.nan ∨ rawId = NumVal.val 0) :
    deleteRoute db rawId = ((400, "Reservation ID required"), db) := by
  rcases h with h | h <;> subst h <;> rfl

/-- Concrete instance of delete_invalid_id at id 0 on a one row
database. -/
theorem delete_invalid_id_witness :
    deleteRoute ⟨[], [], [⟨3, 1, 2, 20250715, 840, 900, Status.reserved⟩], 4⟩
        (NumVal.val 0) =
      ((400, "Reservation ID required"),
        ⟨[], [], [⟨3, 1, 2, 20250715, 840, 900, Status.reserved⟩], 4⟩) :=
  delete_invalid_id ⟨[], [], [⟨3, 1, 2, 20250715, 840, 900, Status.reserved⟩], 4⟩
    (NumVal.val 0) (Or.inr rfl)

/-- One mutation request arriving at the route layer (already past the
type and format validation, with times parsed to minutes). -/
inductive Op where
  | create (userId seatId reservedDate startTime endTime : Nat)
  | cancel (id : Nat)
  | rebook (id userId seatId reservedDate startTime endTime : Nat)
deriving DecidableEq, Repr

/-- The committed state after one route call: the create and rebook
routes reject a request whose start is not strictly before its end with
a validation error before any transaction opens, and the cancel and
rebook routes reject a falsy id; otherwise the transaction body runs. -/
def applyOp (db : DB) (op : Op) : DB :=
  match op with
  | Op.create userId seatId reservedDate startTime endTime =>
    if endTime ≤ startTime then db
    else (createOp db userId seatId reservedDate startTime endTime).2
  | Op.cancel id =>
    if id = 0 then db else (cancelOp db id).2
  | Op.rebook id userId seatId reservedDate startTime endTime =>
    if id = 0 then db
    else if endTime ≤ startTime then db
    else (rebookOp db id userId seatId reservedDate startTime endTime).2

/-- The committed state after a sequence of route calls. -/
def applyOps (db : DB) (ops : List Op) : DB :=
  ops.foldl applyOp db

/-- Rows of a canceled table keep the times of the original rows. -/
theorem cancelReservation_times {db : DB} {id : Nat} {r : Reservation}
    (hr : r ∈ (cancelReservation db id).reservations) :
    ∃ r0 ∈ db.reservations, r.startTime = r0.startTime ∧ r.endTime = r0.endTime := by
  simp only [cancelReservation, List.mem_map] at hr
  obtain ⟨r0, hr0, hmap⟩ := hr
  refine ⟨r0, hr0, ?_⟩
  by_cases h : r0.id = id <;> simp [h] at hmap <;> rw [← hmap] <;> exact ⟨rfl, rfl⟩

/-- One route call preserves the start before end invariant. -/
theorem applyOp_start_lt (db : DB) (op : Op)
    (h : ∀ r ∈ db.reservations, r.startTime < r.endTime) :
    ∀ r ∈ (applyOp db op).reservations, r.startTime < r.endTime := by
  cases op with
  | create userId seatId reservedDate startTime endTime =>
    by_cases hv : endTime ≤ startTime
    · simpa [applyOp, hv] using h
    · simp only [applyOp, hv, if_neg, ite_false]
      by_cases h1 : checkUserExists db userId = true
      · by_cases h2 : checkSeatExists db seatId = true
        · by_cases h3 : checkOverlap db seatId reservedDate startTime endTime none = true
          · simpa [createOp, h1, h2, h3] using h
          · intro r hr
            simp [createOp, h1, h2, h3, createReservation] at hr
            rcases hr with hr | hr
            · exact h r hr
            · rw [hr]
              simpa using Nat.lt_of_not_le hv
        · simpa [createOp, h1, h2] using h
      · simpa [createOp, h1] using h
  | cancel id =>
    by_cases hv : id = 0
    · simpa [applyOp, hv] using h
    · simp only [applyOp, hv, ite_false]
      by_cases h1 : checkReservationExists db id = true
      · intro r hr
        simp only [cancelOp, h1, Bool.not_true, Bool.false_eq_true, if_false] at hr
        obtain ⟨r0, hr0, ht1, ht2⟩ := cancelReservation_times hr
        rw [ht1, ht2]
        exact h r0 hr0
      · simpa [cancelOp, h1] using h
  | rebook id userId seatId reservedDate startTime endTime =>
    by_cases hv0 : id = 0
    · simpa [applyOp, hv0] using h
    · by_cases hv : endTime ≤ startTime
      · simpa [applyOp, hv0, hv] using h
      · simp only [applyOp, hv0, hv, ite_false]
        by_cases h0 : checkReservationExists db id = true
        · by_cases h1 : checkUserExists db userId = true
          · by_cases h2 : checkSeatExists db seatId = true
            · by_cases h3 :
                checkOverlap db seatId reservedDate startTime endTime (some id) = true
              · simpa [rebookOp, h0, h1, h2, h3] using h
              · intro r hr
                simp only [rebookOp, h0, h1, h2, h3, createReservation, Bool.not_true,
                  Bool.false_eq_true, if_false, List.mem_append, List.mem_singleton] at hr
                rcases hr with hr | hr
                · obtain ⟨r0, hr0, ht1, ht2⟩ := cancelReservation_times hr
                  rw [ht1, ht2]
                  exact h r0 hr0
                · rw [hr]
                  simpa using Nat.lt_of_not_le hv
            · simpa [rebookOp, h0, h1, h2] using h
          · simpa [rebookOp, h0, h1] using h
        · simpa [rebookOp, h0] using h

/-- Claim C9: from any committed state in which every reservation starts
strictly before it ends, any sequence of Create, Cancel and Rebook route
calls leads only to states with the same property: requests with start
at or after end are rejected by the validation before any transaction
opens, and no other path inserts a row. -/
theorem start_lt_invariant (db : DB)
    (h : ∀ r ∈ db.reservations, r.startTime < r.endTime) (ops : List Op) :
    ∀ r ∈ (applyOps db ops).reservations, r.startTime < r.endTime := by
  induction ops generalizing db with
  | nil => simpa [applyOps] using h
  | cons op rest ih =>
    simp only [applyOps, List.foldl_cons]
    exact ih (applyOp db op) (applyOp_start_lt db op h)

/-- Concrete instance of start_lt_invariant: starting from a state with a
user, a seat and no reservations, a create, a rebook and a cancel are
applied; every surviving reservation starts before it ends. -/
theorem start_lt_invariant_witness :
    (∀ r ∈ (⟨[⟨1, "Taro", "Tanaka"⟩], [⟨2, "A-1"⟩], [], 1⟩ : DB).reservations,
      r.startTime < r.endTime) ∧
    (∀ r ∈ (applyOps ⟨[⟨1, "Taro", "Tanaka"⟩], [⟨2, "A-1"⟩], [], 1⟩
        [Op.create 1 2 20250715 840 900, Op.rebook 1 1 2 20250715 600 660,
          Op.cancel 2]).reservations,
      r.startTime < r.endTime) :=
  ⟨by decide,
    start_lt_invariant ⟨[⟨1, "Taro", "Tanaka"⟩], [⟨2, "A-1"⟩], [], 1⟩ (by decide)
      [Op.create 1 2 20250715 840 900, Op.rebook 1 1 2 20250715 600 660, Op.cancel 2]⟩

end SeatRes
